import Mathlib

/-!
Shallow embedding of `src/runner.py` (cp-runner): the test-execution and
result-classification engine (`run_single_test`, `run_tests`) and the
interactive presentation state machine (`action_toggle_expand`,
`action_toggle_verbose`, `render_detail`, `show_summary`).

Python strings are modelled as `String` (token-level reasoning goes through
`List Char`), machine integers as `Int`/`Nat`, and a child-process run as a
`RawOutcome` value supplied by an execution oracle.
-/

/-- Whitespace characters matched by Python's `\s` (and stripped by
`str.strip()`) on the ASCII text this runner handles:
space, tab, newline, vertical tab, form feed, carriage return. -/
def isPySpace (c : Char) : Bool :=
  c = ' ' || c = '\t' || c = '\n' || c = Char.ofNat 11 || c = Char.ofNat 12 || c = '\r'

/-- Accumulator pass for splitting a character list into its maximal runs of
non-whitespace characters (whitespace runs are separators and are dropped). -/
def splitWsAux : List Char → List Char → List (List Char)
  | [], cur => if cur = [] then [] else [cur.reverse]
  | c :: cs, cur =>
    if isPySpace c then
      (if cur = [] then splitWsAux cs [] else cur.reverse :: splitWsAux cs [])
    else
      splitWsAux cs (c :: cur)

/-- The maximal non-whitespace runs of a character list, in order. -/
def splitWsRuns (l : List Char) : List (List Char) :=
  splitWsAux l []

/-- Python `str.strip()`: remove leading and trailing whitespace
(here: trailing first, then leading; the two orders agree). -/
def pyStripL (l : List Char) : List Char :=
  ((l.reverse.dropWhile isPySpace).reverse).dropWhile isPySpace

/-- Model of `re.split(r'\s+', s.strip())` from `run_single_test` (src/runner.py:345),
on the character list of `s`: the stripped text has no leading or trailing
whitespace, so `re.split` returns exactly its maximal non-whitespace runs —
except that `re.split` applied to the empty string returns `['']`. -/
def pyTokensL (l : List Char) : List (List Char) :=
  let t := pyStripL l
  if t = [] then [[]] else splitWsRuns t

/-- Token sequence compared by the runner: `re.split(r'\s+', s.strip())`. -/
def pyTokens (s : String) : List (List Char) :=
  pyTokensL s.toList

/-- A test case as parsed from the TOML file (`parse_tests`,
src/runner.py:293): an input string and an optional expected output. -/
structure TestCase where
  input : String
  expected_output : Option String
  deriving Repr, DecidableEq

/-- The per-case record built by `run_single_test` (src/runner.py:359) and
appended to `self.test_results`. `status` and `error` are the Python string
values used by the source. -/
structure TestResult where
  name : String
  index : Nat
  status : String
  time_ms : Nat
  input : String
  output : String
  expected : Option String
  error : String
  expanded : Bool
  deriving Repr, DecidableEq

/-- Outcome of one `subprocess.run` call (src/runner.py:320): either the child
completed with an exit status and captured streams, or the 5-second timeout
fired (`subprocess.TimeoutExpired`). Because the target is launched through
the shell (`shell=True`), a missing or unexecutable binary also surfaces as a
`completed` outcome with a nonzero shell exit status (127/126), not as an
exception. -/
inductive RawOutcome where
  | completed (returncode : Int) (stdout : String) (stderr : String) (elapsed_ms : Nat)
  | timedOut
  deriving Repr, DecidableEq

/-- Lookup table for `signal.Signals(n).name` over the signal numbers defined on the macOS
platform the source targets (valid numbers 1–31); `none` when `Signals(n)`
raises `ValueError`. -/
def sigName : Int → Option String
  | 1 => some "SIGHUP"
  | 2 => some "SIGINT"
  | 3 => some "SIGQUIT"
  | 4 => some "SIGILL"
  | 5 => some "SIGTRAP"
  | 6 => some "SIGABRT"
  | 7 => some "SIGEMT"
  | 8 => some "SIGFPE"
  | 9 => some "SIGKILL"
  | 10 => some "SIGBUS"
  | 11 => some "SIGSEGV"
  | 12 => some "SIGSYS"
  | 13 => some "SIGPIPE"
  | 14 => some "SIGALRM"
  | 15 => some "SIGTERM"
  | 16 => some "SIGURG"
  | 17 => some "SIGSTOP"
  | 18 => some "SIGTSTP"
  | 19 => some "SIGCONT"
  | 20 => some "SIGCHLD"
  | 21 => some "SIGTTIN"
  | 22 => some "SIGTTOU"
  | 23 => some "SIGIO"
  | 24 => some "SIGXCPU"
  | 25 => some "SIGXFSZ"
  | 26 => some "SIGVTALRM"
  | 27 => some "SIGPROF"
  | 28 => some "SIGWINCH"
  | 29 => some "SIGINFO"
  | 30 => some "SIGUSR1"
  | 31 => some "SIGUSR2"
  | _ => none

/-- Lines 333–336 of src/runner.py:
`try: signal_name = signal.Signals(-(exit_code)).name`
`except: signal_name = f"Signal {-exit_code}"`. -/
def signalLabel (exit_code : Int) : String :=
  match sigName (-exit_code) with
  | some nm => nm
  | none => "Signal " ++ toString (-exit_code)

/-- Model of `run_single_test` (src/runner.py:308–370), given the raw outcome of the
`subprocess.run` call, builds the `test_info` record that is appended to
`self.test_results`; `idx` is `len(self.test_results)` at append time.
The local variables `output`/`error` start as `""` and are only assigned on
the paths that the source assigns them. -/
def run_single_test (idx : Nat) (name : String) (input_data : String)
    (expected : Option String) (raw : RawOutcome) : TestResult :=
  match raw with
  | .timedOut =>
    { name := name, index := idx, status := "timeout", time_ms := 5000,
      input := input_data, output := "", expected := expected,
      error := "Time Limit Exceeded", expanded := false }
  | .completed rc out err t =>
    if rc ≠ 0 then
      { name := name, index := idx, status := "error", time_ms := t,
        input := input_data, output := "", expected := expected,
        error := "Runtime Error: " ++ signalLabel rc, expanded := false }
    else
      { name := name, index := idx,
        status :=
          match expected with
          | some e => if pyTokens out = pyTokens e then "passed" else "failed"
          | none => "failed",
        time_ms := t, input := input_data, output := out, expected := expected,
        error := err, expanded := false }

/-- Claim C5: For every case whose execution exceeds the timeout, the recorded
RunResult has status `"timeout"`, failure detail exactly
`"Time Limit Exceeded"`, and elapsed time fixed at the nominal 5000 ms
rather than a measured duration. -/
theorem run_single_test_timeout_spec :
    ∀ (idx : Nat) (n i : String) (e : Option String),
      (run_single_test idx n i e .timedOut).status = "timeout" ∧
      (run_single_test idx n i e .timedOut).error = "Time Limit Exceeded" ∧
      (run_single_test idx n i e .timedOut).time_ms = 5000 :=
  fun _ _ _ _ => ⟨rfl, rfl, rfl⟩

/-- Claim C3: For every executed case with no expected output that exited with
status 0 (and did not time out), the recorded status is `"failed"`, never
`"passed"`, whatever the actual output was. -/
theorem run_single_test_no_expected_failed :
    ∀ (idx : Nat) (n i out err : String) (t : Nat),
      (run_single_test idx n i none (.completed 0 out err t)).status = "failed" ∧
      (run_single_test idx n i none (.completed 0 out err t)).status ≠ "passed" :=
  fun _ _ _ _ _ _ => ⟨rfl, fun h => (by decide : ("failed" : String) ≠ "passed") h⟩

/-- On the exit-0 path with an oracle present, the recorded status is the
token comparison of lines 343–350 of src/runner.py. -/
theorem run_single_test_status_exit_zero (idx : Nat) (n i out err : String)
    (t : Nat) (e : String) :
    (run_single_test idx n i (some e) (.completed 0 out err t)).status =
      if pyTokens out = pyTokens e then "passed" else "failed" :=
  rfl

/-- Appending a trailing whitespace character does not change `pyStripL`. -/
theorem pyStripL_append_space (l : List Char) (c : Char) (hc : isPySpace c = true) :
    pyStripL (l ++ [c]) = pyStripL l := by
  simp [pyStripL, List.dropWhile_cons, hc]

/-- Appending a trailing whitespace character does not change the tokens. -/
theorem pyTokensL_append_space (l : List Char) (c : Char) (hc : isPySpace c = true) :
    pyTokensL (l ++ [c]) = pyTokensL l := by
  simp [pyTokensL, pyStripL_append_space l c hc]

/-- A trailing newline never changes the compared token sequence. -/
theorem pyTokens_append_newline (s : String) : pyTokens (s ++ "\n") = pyTokens s := by
  unfold pyTokens
  rw [show (s ++ "\n").toList = s.toList ++ ['\n'] by
    simp [String.toList, String.data_append]]
  exact pyTokensL_append_space s.toList '\n' (by decide)

/-- Claim C1: For every executed case that exits with status 0 and has an
expected output, the recorded status is `"passed"` iff splitting the trimmed
actual stdout and the trimmed expected output on runs of whitespace yields
equal token sequences (and `"failed"` otherwise); in particular a trailing
newline on the actual output never changes the verdict, and token-equal
outputs always pass. -/
theorem run_single_test_token_comparison :
    (∀ (idx : Nat) (n i out err : String) (t : Nat) (e : String),
      (run_single_test idx n i (some e) (.completed 0 out err t)).status =
        if pyTokens out = pyTokens e then "passed" else "failed") ∧
    (∀ (idx : Nat) (n i out err : String) (t : Nat) (e : String),
      (run_single_test idx n i (some e) (.completed 0 (out ++ "\n") err t)).status =
        (run_single_test idx n i (some e) (.completed 0 out err t)).status) ∧
    (∀ (out e : String), pyTokens out = pyTokens e →
      ∀ (idx : Nat) (n i err : String) (t : Nat),
        (run_single_test idx n i (some e) (.completed 0 out err t)).status = "passed") := by
  refine ⟨fun idx n i out err t e => rfl,
          fun idx n i out err t e => ?_,
          fun out e h idx n i err t => ?_⟩
  · rw [run_single_test_status_exit_zero, run_single_test_status_exit_zero,
      pyTokens_append_newline]
  · rw [run_single_test_status_exit_zero, if_pos h]

/-- Claim C1 witness: The spec's example: actual stdout `"6\n"` against
expected `"6"` tokenizes equally on both sides and is recorded `"passed"`. -/
theorem run_single_test_token_comparison_witness :
    pyTokens "6\n" = pyTokens "6" ∧
    (run_single_test 0 "t1" "3\n1 2 3\n" (some "6") (.completed 0 "6\n" "" 4)).status =
      "passed" :=
  ⟨by decide,
   run_single_test_token_comparison.2.2 "6\n" "6" (by decide) 0 "t1" "3\n1 2 3\n" "" 4⟩

/-- Claim C4: For every executed case completing with a nonzero exit status,
the recorded status is `"error"` with detail `"Runtime Error: "` followed by
the signal label: the symbolic signal name when the negated exit status is a
defined signal number (e.g. `SIGSEGV` for `-11`), and the generic
`"Signal N"` fallback otherwise. -/
theorem run_single_test_runtime_error_signal :
    (∀ (idx : Nat) (n i : String) (e : Option String) (rc : Int) (out err : String) (t : Nat),
      rc ≠ 0 →
      (run_single_test idx n i e (.completed rc out err t)).status = "error" ∧
      (run_single_test idx n i e (.completed rc out err t)).error =
        "Runtime Error: " ++ signalLabel rc) ∧
    signalLabel (-11) = "SIGSEGV" ∧
    (∀ rc : Int, sigName (-rc) = none → signalLabel rc = "Signal " ++ toString (-rc)) := by
  refine ⟨fun idx n i e rc out err t h => ⟨?_, ?_⟩, rfl, fun rc h => ?_⟩
  · simp [run_single_test, h]
  · simp [run_single_test, h]
  · unfold signalLabel
    rw [h]

/-- Claim C4 witness: A segmentation fault (exit status `-11`) is recorded as
status `"error"` with detail `"Runtime Error: SIGSEGV"`. -/
theorem run_single_test_runtime_error_signal_witness :
    ((-11 : Int) ≠ 0) ∧
    (run_single_test 0 "t1" "3\n1 2 3\n" (some "6") (.completed (-11) "" "" 2)).error =
      "Runtime Error: SIGSEGV" :=
  ⟨by decide, by
    exact (run_single_test_runtime_error_signal.1 0 "t1" "3\n1 2 3\n" (some "6")
      (-11) "" "" 2 (by decide)).2⟩

/-- Claim C6 counterexample: On a nonzero exit the recorded RunResult does NOT
contain the captured streams: `output` is left `""` and `error` holds the
runtime-error detail, not the captured stderr. -/
theorem run_single_test_error_path_drops_streams :
    (run_single_test 0 "t1" "in" (some "6")
        (.completed 1 "captured-out" "captured-err" 3)).output = "" ∧
    (run_single_test 0 "t1" "in" (some "6")
        (.completed 1 "captured-out" "captured-err" 3)).output ≠ "captured-out" ∧
    (run_single_test 0 "t1" "in" (some "6")
        (.completed 1 "captured-out" "captured-err" 3)).error ≠ "captured-err" :=
  ⟨rfl, by decide, by decide⟩

/-- Claim C6 as amended: The captured stdout/stderr are recorded only on the
exit-0 path; on a nonzero exit the RunResult's `output` is empty and its
`error` holds the `"Runtime Error: ..."` detail instead of the captured
streams. -/
theorem run_single_test_streams_amended :
    (∀ (idx : Nat) (n i : String) (e : Option String) (out err : String) (t : Nat),
      (run_single_test idx n i e (.completed 0 out err t)).output = out ∧
      (run_single_test idx n i e (.completed 0 out err t)).error = err) ∧
    (∀ (idx : Nat) (n i : String) (e : Option String) (rc : Int) (out err : String) (t : Nat),
      rc ≠ 0 →
      (run_single_test idx n i e (.completed rc out err t)).output = "" ∧
      (run_single_test idx n i e (.completed rc out err t)).error =
        "Runtime Error: " ++ signalLabel rc) := by
  refine ⟨fun idx n i e out err t => ⟨rfl, rfl⟩,
          fun idx n i e rc out err t h => ⟨?_, ?_⟩⟩
  · simp [run_single_test, h]
  · simp [run_single_test, h]

/-- Claim C6 amended-theorem witness: A run with exit status 1 records empty output. -/
theorem run_single_test_streams_amended_witness :
    ((1 : Int) ≠ 0) ∧
    (run_single_test 0 "t1" "in" (some "6") (.completed 1 "o" "e" 3)).output = "" :=
  ⟨by decide,
   (run_single_test_streams_amended.2 0 "t1" "in" (some "6") 1 "o" "e" 3 (by decide)).1⟩

/-- The `"Runtime Error: "` detail is never the empty string. -/
theorem runtime_error_detail_ne_empty (x : String) : "Runtime Error: " ++ x ≠ "" := by
  intro hc
  have hlen := congrArg String.length hc
  rw [String.length_append] at hlen
  rw [show ("Runtime Error: " : String).length = 15 from rfl,
      show ("" : String).length = 0 from rfl] at hlen
  omega

/-- Claim C7: `run_single_test` is a total classification: every raw outcome is
recorded with one of the four statuses, and a launch failure — which under
`shell=True` surfaces as a completed outcome with a nonzero shell exit status
such as 127 — is recorded as a distinct `"error"` status with a non-empty
failure detail, never as a silently empty classification. -/
theorem run_single_test_total_classification :
    (∀ (idx : Nat) (n i : String) (e : Option String) (raw : RawOutcome),
      (run_single_test idx n i e raw).status = "passed" ∨
      (run_single_test idx n i e raw).status = "failed" ∨
      (run_single_test idx n i e raw).status = "error" ∨
      (run_single_test idx n i e raw).status = "timeout") ∧
    (∀ (idx : Nat) (n i : String) (e : Option String) (rc : Int) (out err : String) (t : Nat),
      rc ≠ 0 →
      (run_single_test idx n i e (.completed rc out err t)).status = "error" ∧
      (run_single_test idx n i e (.completed rc out err t)).error ≠ "") := by
  constructor
  · intro idx n i e raw
    cases raw with
    | timedOut => exact Or.inr (Or.inr (Or.inr rfl))
    | completed rc out err t =>
      by_cases h : rc = 0
      · subst h
        cases e with
        | none => exact Or.inr (Or.inl rfl)
        | some ex =>
          by_cases hp : pyTokens out = pyTokens ex
          · exact Or.inl (by rw [run_single_test_status_exit_zero, if_pos hp])
          · exact Or.inr (Or.inl (by rw [run_single_test_status_exit_zero, if_neg hp]))
      · exact Or.inr (Or.inr (Or.inl (by simp [run_single_test, h])))
  · intro idx n i e rc out err t h
    refine ⟨by simp [run_single_test, h], ?_⟩
    rw [show (run_single_test idx n i e (.completed rc out err t)).error =
          "Runtime Error: " ++ signalLabel rc from by simp [run_single_test, h]]
    exact runtime_error_detail_ne_empty (signalLabel rc)

/-- Claim C7 witness: The shell's exit status 127 for a missing binary is
recorded as status `"error"`. -/
theorem run_single_test_total_classification_witness :
    ((127 : Int) ≠ 0) ∧
    (run_single_test 0 "t1" "in" (some "6")
        (.completed 127 "" "sh: command not found" 1)).status = "error" :=
  ⟨by decide,
   (run_single_test_total_classification.2 0 "t1" "in" (some "6") 127 ""
      "sh: command not found" 1 (by decide)).1⟩

/-- Default pair used with `List.getD` when indexing the case list. -/
def dfltCase : String × TestCase := ("", { input := "", expected_output := none })

/-- The status a given case is classified with (independent of its position
in `self.test_results`). -/
def caseStatus (execF : String → TestCase → RawOutcome) (c : String × TestCase) : String :=
  (run_single_test 0 c.1 c.2.input c.2.expected_output (execF c.1 c.2)).status

/-- The recorded status does not depend on the index at append time. -/
theorem run_single_test_status_index_irrel (i j : Nat) (n inp : String)
    (e : Option String) (raw : RawOutcome) :
    (run_single_test i n inp e raw).status = (run_single_test j n inp e raw).status := by
  cases raw with
  | timedOut => rfl
  | completed rc out err t =>
    simp only [run_single_test]
    split <;> rfl

/-- The loop of `run_tests` (src/runner.py:254–266) over the remaining cases,
carrying `self.test_results` as the accumulator: skip a case when the filter
excludes it, otherwise run it, append its RunResult, and break as soon as the
just-appended RunResult (`self.test_results[-1]`) has status `"timeout"`.
The child-process runs are supplied by the oracle `execF`. -/
def run_tests_aux (execF : String → TestCase → RawOutcome) (filt : String) :
    List (String × TestCase) → List TestResult → List TestResult
  | [], acc => acc
  | c :: rest, acc =>
    if filt ≠ "all" ∧ c.1 ≠ filt then run_tests_aux execF filt rest acc
    else
      let r := run_single_test acc.length c.1 c.2.input c.2.expected_output (execF c.1 c.2)
      if r.status = "timeout" then acc ++ [r]
      else run_tests_aux execF filt rest (acc ++ [r])

/-- Model of `run_tests` (src/runner.py:254–266): iterate the parsed cases in
order starting from an empty `self.test_results`. -/
def run_tests (execF : String → TestCase → RawOutcome) (filt : String)
    (cases : List (String × TestCase)) : List TestResult :=
  run_tests_aux execF filt cases []

/-- The RunResults produced by executing every case of a list in order,
numbering them from `base`. -/
def resultsSeq (execF : String → TestCase → RawOutcome) :
    List (String × TestCase) → Nat → List TestResult
  | [], _ => []
  | c :: rest, base =>
    run_single_test base c.1 c.2.input c.2.expected_output (execF c.1 c.2) ::
      resultsSeq execF rest (base + 1)

/-- Executing a list of cases yields one RunResult per case. -/
theorem resultsSeq_length (execF : String → TestCase → RawOutcome)
    (cs : List (String × TestCase)) :
    ∀ base, (resultsSeq execF cs base).length = cs.length := by
  induction cs with
  | nil => intro base; rfl
  | cons c rest ih => intro base; simp [resultsSeq, ih]

/-- One step of the `run_tests` loop under the `"all"` filter. -/
theorem run_tests_aux_cons_all (execF : String → TestCase → RawOutcome)
    (c : String × TestCase) (rest : List (String × TestCase)) (acc : List TestResult) :
    run_tests_aux execF "all" (c :: rest) acc =
      if (run_single_test acc.length c.1 c.2.input c.2.expected_output (execF c.1 c.2)).status
          = "timeout"
      then acc ++ [run_single_test acc.length c.1 c.2.input c.2.expected_output (execF c.1 c.2)]
      else run_tests_aux execF "all" rest
        (acc ++ [run_single_test acc.length c.1 c.2.input c.2.expected_output (execF c.1 c.2)]) := by
  simp [run_tests_aux]

/-- Generalized halt-on-timeout invariant for the loop of `run_tests`: if the
first case classified `"timeout"` among the remaining cases is the one at
position `k`, the loop appends exactly the RunResults of positions `0..k`. -/
theorem run_tests_aux_halt (execF : String → TestCase → RawOutcome) :
    ∀ (cases : List (String × TestCase)) (k : Nat) (acc : List TestResult),
      k < cases.length →
      caseStatus execF (cases.getD k dfltCase) = "timeout" →
      (∀ j, j < k → caseStatus execF (cases.getD j dfltCase) ≠ "timeout") →
      run_tests_aux execF "all" cases acc =
        acc ++ resultsSeq execF (cases.take (k + 1)) acc.length := by
  intro cases
  induction cases with
  | nil => intro k acc hk _ _; exact absurd hk (by simp)
  | cons c rest ih =>
    intro k acc hk ht hb
    rw [run_tests_aux_cons_all]
    cases k with
    | zero =>
      have hstat : (run_single_test acc.length c.1 c.2.input c.2.expected_output
          (execF c.1 c.2)).status = "timeout" := by
        rw [run_single_test_status_index_irrel acc.length 0]
        simpa [caseStatus] using ht
      rw [if_pos hstat]
      simp [resultsSeq]
    | succ k' =>
      have hne : (run_single_test acc.length c.1 c.2.input c.2.expected_output
          (execF c.1 c.2)).status ≠ "timeout" := by
        rw [run_single_test_status_index_irrel acc.length 0]
        simpa [caseStatus] using hb 0 (Nat.succ_pos k')
      rw [if_neg hne]
      rw [ih k' _ (Nat.lt_of_succ_lt_succ hk) (by simpa using ht)
        (fun j hj => by simpa using hb (j + 1) (Nat.succ_lt_succ hj))]
      simp [resultsSeq, List.take_succ_cons]

/-- Claim C2: under the `"all"` filter, execution halts the instant a
`"timeout"` status is recorded: if the case at position `k` is the first one
classified `"timeout"`, then `run_tests` produces exactly the RunResults of
the cases up to and including position `k` — `k + 1` RunResults in all — and
the later cases are never executed. -/
theorem run_tests_halts_on_first_timeout (execF : String → TestCase → RawOutcome)
    (cases : List (String × TestCase)) (k : Nat)
    (hk : k < cases.length)
    (ht : caseStatus execF (cases.getD k dfltCase) = "timeout")
    (hb : ∀ j, j < k → caseStatus execF (cases.getD j dfltCase) ≠ "timeout") :
    run_tests execF "all" cases = resultsSeq execF (cases.take (k + 1)) 0 ∧
    (run_tests execF "all" cases).length = k + 1 := by
  have h := run_tests_aux_halt execF cases k [] hk ht hb
  have h' : run_tests execF "all" cases = resultsSeq execF (cases.take (k + 1)) 0 := by
    simpa [run_tests] using h
  refine ⟨h', ?_⟩
  rw [h', resultsSeq_length, List.length_take]
  omega

/-- Oracle for the C2 witness: case `"c3"` times out, every other case
completes immediately with exit status 0. -/
def execW : String → TestCase → RawOutcome :=
  fun n _ => if n = "c3" then .timedOut else .completed 0 "1" "" 2

/-- Five concrete cases for the C2 witness. -/
def casesW : List (String × TestCase) :=
  [("c1", { input := "", expected_output := none }),
   ("c2", { input := "", expected_output := none }),
   ("c3", { input := "", expected_output := none }),
   ("c4", { input := "", expected_output := none }),
   ("c5", { input := "", expected_output := none })]

/-- Claim C2 witness: with five cases of which the third is the first to time
out, exactly 3 RunResults are produced; cases 4 and 5 are never executed. -/
theorem run_tests_halts_on_first_timeout_witness :
    (2 < casesW.length) ∧ (run_tests execW "all" casesW).length = 3 :=
  ⟨by decide,
   (run_tests_halts_on_first_timeout execW casesW 2 (by decide) (by decide) (by decide)).2⟩

/-- The mutable UI state of `TestRunnerApp` that the interactive actions touch
(src/runner.py:218–229): the global `verbose` flag, the focused list index,
the focused panel, and the accumulated `self.test_results`. -/
structure AppState where
  verbose : Bool
  focused_index : Nat
  focused_panel : String
  test_results : List TestResult
  deriving Repr, DecidableEq

/-- Model of `action_toggle_verbose` (src/runner.py:514–518): flip the global
`verbose` flag, then set every result's `expanded` flag to the new value. -/
def action_toggle_verbose (s : AppState) : AppState :=
  let v := !s.verbose
  { s with verbose := v,
           test_results := s.test_results.map fun t => { t with expanded := v } }

/-- Model of `action_toggle_expand` (src/runner.py:509–512): when the focused
index is in range, flip the `expanded` flag of the focused result only. -/
def action_toggle_expand (s : AppState) : AppState :=
  match s.test_results[s.focused_index]? with
  | some t =>
    { s with test_results :=
        s.test_results.set s.focused_index { t with expanded := !t.expanded } }
  | none => s

/-- The `show_expanded` decision of `render_detail` (src/runner.py:397 and
421): `none` when there is no focused result to render, otherwise whether the
full detail is shown: `verbose or status != "passed" or expanded`. -/
def render_detail_show_expanded (s : AppState) : Option Bool :=
  match s.test_results[s.focused_index]? with
  | some t => some (s.verbose || !(t.status == "passed") || t.expanded)
  | none => none

/-- Claim C8: `action_toggle_verbose` flips the global `verbose` flag and sets
every result's `expanded` flag to the new value; consequently two toggles
starting from `verbose = false` restore `verbose = false` and force every
result's `expanded` flag to `false`, whatever the flags were before. -/
theorem action_toggle_verbose_spec :
    (∀ s : AppState,
      (action_toggle_verbose s).verbose = !s.verbose ∧
      ∀ r ∈ (action_toggle_verbose s).test_results, r.expanded = !s.verbose) ∧
    (∀ s : AppState, s.verbose = false →
      (action_toggle_verbose (action_toggle_verbose s)).verbose = false ∧
      ∀ r ∈ (action_toggle_verbose (action_toggle_verbose s)).test_results,
        r.expanded = false) := by
  have h1 : ∀ s : AppState, (action_toggle_verbose s).verbose = !s.verbose :=
    fun s => rfl
  have h2 : ∀ (s : AppState) (r : TestResult),
      r ∈ (action_toggle_verbose s).test_results → r.expanded = !s.verbose := by
    intro s r hr
    simp only [action_toggle_verbose, List.mem_map] at hr
    obtain ⟨a, _, rfl⟩ := hr
    rfl
  refine ⟨fun s => ⟨h1 s, h2 s⟩, fun s hv => ⟨?_, ?_⟩⟩
  · rw [h1, h1, hv]
    rfl
  · intro r hr
    rw [h2 (action_toggle_verbose s) r hr, h1 s, hv]
    rfl

/-- A concrete TestResult for the interactive-state witnesses. -/
def resW (st : String) (ex : Bool) : TestResult :=
  { name := "w", index := 0, status := st, time_ms := 1, input := "", output := "",
    expected := none, error := "", expanded := ex }

/-- A concrete state for the C8 witness: verbose off, one expanded result. -/
def stateW : AppState :=
  { verbose := false, focused_index := 0, focused_panel := "sidebar",
    test_results := [resW "passed" true, resW "failed" false] }

/-- Claim C8 witness: toggling verbose twice from `verbose = false` restores
`verbose = false`. -/
theorem action_toggle_verbose_spec_witness :
    stateW.verbose = false ∧
    (action_toggle_verbose (action_toggle_verbose stateW)).verbose = false :=
  ⟨rfl, (action_toggle_verbose_spec.2 stateW rfl).1⟩

/-- Setting back the value already stored at an index leaves a list equal. -/
theorem list_set_getElem_self {α : Type} (l : List α) (i : Nat) (a : α)
    (h : l[i]? = some a) : l.set i a = l := by
  apply List.ext_getElem?
  intro j
  by_cases hij : i = j
  · subst hij
    have hlen : i < l.length := by
      by_contra hc
      rw [List.getElem?_eq_none (Nat.le_of_not_lt hc)] at h
      exact Option.noConfusion h
    simp [List.getElem?_set, hlen, h]
  · rw [List.getElem?_set_ne hij]

/-- Unfolding step of `action_toggle_expand` when the focused result exists. -/
theorem action_toggle_expand_step (st : AppState) (v : TestResult)
    (hv : st.test_results[st.focused_index]? = some v) :
    action_toggle_expand st =
      { st with test_results :=
          st.test_results.set st.focused_index { v with expanded := !v.expanded } } := by
  unfold action_toggle_expand
  rw [hv]

/-- Claim C9: with a valid focused index, `action_toggle_expand` flips the
`expanded` flag of the focused result only — preserving its status, every
other result, and the `verbose`/`focused_index`/`focused_panel` state —
applying it twice restores the result list, and on a `"passed"`, non-verbose,
non-expanded case a single toggle switches the detail pane from collapsed
(`some false`) to fully shown (`some true`), the pane being shown exactly
when `verbose || status != "passed" || expanded`. -/
theorem action_toggle_expand_spec (s : AppState)
    (h : s.focused_index < s.test_results.length) :
    ((action_toggle_expand s).test_results[s.focused_index]?).map TestResult.expanded =
      (s.test_results[s.focused_index]?).map (fun t => !t.expanded) ∧
    ((action_toggle_expand s).test_results[s.focused_index]?).map TestResult.status =
      (s.test_results[s.focused_index]?).map TestResult.status ∧
    (∀ j, j ≠ s.focused_index →
      (action_toggle_expand s).test_results[j]? = s.test_results[j]?) ∧
    (action_toggle_expand s).verbose = s.verbose ∧
    (action_toggle_expand s).focused_index = s.focused_index ∧
    (action_toggle_expand s).focused_panel = s.focused_panel ∧
    (action_toggle_expand (action_toggle_expand s)).test_results = s.test_results ∧
    (s.verbose = false →
      (s.test_results[s.focused_index]?).map TestResult.status = some "passed" →
      (s.test_results[s.focused_index]?).map TestResult.expanded = some false →
      render_detail_show_expanded s = some false ∧
      render_detail_show_expanded (action_toggle_expand s) = some true) := by
  obtain ⟨t, hget⟩ : ∃ t, s.test_results[s.focused_index]? = some t :=
    ⟨_, List.getElem?_eq_getElem h⟩
  have htoggle := action_toggle_expand_step s t hget
  have hset_at : (s.test_results.set s.focused_index
      { t with expanded := !t.expanded })[s.focused_index]? =
      some { t with expanded := !t.expanded } := by
    simp [List.getElem?_set, h]
  have hget2 : (action_toggle_expand s).test_results[(action_toggle_expand s).focused_index]? =
      some { t with expanded := !t.expanded } := by
    rw [htoggle]
    exact hset_at
  refine ⟨?_, ?_, ?_, ?_, ?_, ?_, ?_, ?_⟩
  · rw [htoggle]
    show (s.test_results.set s.focused_index
      { t with expanded := !t.expanded })[s.focused_index]?.map TestResult.expanded = _
    rw [hset_at, hget]
    rfl
  · rw [htoggle]
    show (s.test_results.set s.focused_index
      { t with expanded := !t.expanded })[s.focused_index]?.map TestResult.status = _
    rw [hset_at, hget]
    rfl
  · intro j hj
    rw [htoggle]
    exact List.getElem?_set_ne fun he => hj he.symm
  · rw [htoggle]
  · rw [htoggle]
  · rw [htoggle]
  · have htoggle2 := action_toggle_expand_step (action_toggle_expand s)
      { t with expanded := !t.expanded } hget2
    rw [htoggle2]
    show (action_toggle_expand s).test_results.set (action_toggle_expand s).focused_index
      { t with expanded := !(!t.expanded) } = s.test_results
    rw [htoggle]
    show (s.test_results.set s.focused_index { t with expanded := !t.expanded }).set
      s.focused_index { t with expanded := !(!t.expanded) } = s.test_results
    rw [List.set_set, Bool.not_not]
    exact list_set_getElem_self _ _ _ hget
  · intro hv hst hexp
    rw [hget] at hst hexp
    simp only [Option.map_some'] at hst hexp
    injection hst with hst
    injection hexp with hexp
    constructor
    · unfold render_detail_show_expanded
      rw [hget]
      simp [hv, hst, hexp]
    · unfold render_detail_show_expanded
      rw [hget2]
      rw [htoggle]
      simp [hv, hst, hexp]

/-- A concrete state for the C9 witness: verbose off, focused result passed
and collapsed. -/
def stateW2 : AppState :=
  { verbose := false, focused_index := 0, focused_panel := "sidebar",
    test_results := [resW "passed" false, resW "passed" true] }

/-- Claim C9 witness: on a passed, non-verbose, collapsed focused case, one
toggle switches the detail pane from collapsed to fully shown. -/
theorem action_toggle_expand_spec_witness :
    (0 < stateW2.test_results.length) ∧
    render_detail_show_expanded stateW2 = some false ∧
    render_detail_show_expanded (action_toggle_expand stateW2) = some true := by
  have h := (action_toggle_expand_spec stateW2 (by decide)).2.2.2.2.2.2.2 rfl rfl rfl
  exact ⟨by decide, h.1, h.2⟩

/-- The `passed` aggregate of `show_summary` (src/runner.py:446):
`sum(1 for t in self.test_results if t["status"] == "passed")`. -/
def show_summary_passed (results : List TestResult) : Nat :=
  results.countP fun t => t.status == "passed"

/-- The `failed` aggregate of `show_summary` (src/runner.py:447):
`sum(1 for t in self.test_results if t["status"] == "failed")`. -/
def show_summary_failed (results : List TestResult) : Nat :=
  results.countP fun t => t.status == "failed"

/-- The `status_text` of `show_summary` (src/runner.py:452–455): the
all-green `passed/total passed` form when the failed count is zero, the
split green/red form otherwise. -/
def show_summary_status_text (results : List TestResult) : String :=
  if show_summary_failed results = 0 then
    "[bold green]✓ " ++ toString (show_summary_passed results) ++ "/" ++
      toString results.length ++ " passed[/bold green]"
  else
    "[bold green]✓ " ++ toString (show_summary_passed results) ++
      "[/bold green]  [bold red]✗ " ++ toString (show_summary_failed results) ++ "[/bold red]"

/-- Claim C10: only `"passed"` results count toward the passed aggregate and
only `"failed"` results toward the failed aggregate — a `"timeout"` or
`"error"` result contributes to neither — and whenever the failed count is
zero the summary renders the all-green `passed/total passed` form, even if
timeouts or errors are present. -/
theorem show_summary_counts :
    (∀ (r : TestResult) (results : List TestResult),
      r.status = "timeout" ∨ r.status = "error" →
      show_summary_passed (r :: results) = show_summary_passed results ∧
      show_summary_failed (r :: results) = show_summary_failed results) ∧
    (∀ results : List TestResult, show_summary_failed results = 0 →
      show_summary_status_text results =
        "[bold green]✓ " ++ toString (show_summary_passed results) ++ "/" ++
          toString results.length ++ " passed[/bold green]") := by
  constructor
  · intro r results hr
    have hp : (r.status == "passed") = false := by
      cases hr with
      | inl h => rw [h]; rfl
      | inr h => rw [h]; rfl
    have hf : (r.status == "failed") = false := by
      cases hr with
      | inl h => rw [h]; rfl
      | inr h => rw [h]; rfl
    constructor
    · simp [show_summary_passed, List.countP_cons, hp]
    · simp [show_summary_failed, List.countP_cons, hf]
  · intro results h0
    rw [show_summary_status_text, if_pos h0]

/-- A concrete session for the C10 witness: one timeout, one error, one
passed result and no failed result. -/
def summaryW : List TestResult :=
  [resW "timeout" false, resW "error" false, resW "passed" false]

/-- Claim C10 witness: a timeout result counts toward neither aggregate, and
a session holding a timeout, an error and a passed result still renders the
all-green summary form. -/
theorem show_summary_counts_witness :
    ((resW "timeout" false).status = "timeout" ∨ (resW "timeout" false).status = "error") ∧
    show_summary_passed (resW "timeout" false :: [resW "passed" false]) =
      show_summary_passed [resW "passed" false] ∧
    show_summary_failed summaryW = 0 ∧
    show_summary_status_text summaryW =
      "[bold green]✓ " ++ toString (show_summary_passed summaryW) ++ "/" ++
        toString summaryW.length ++ " passed[/bold green]" :=
  ⟨Or.inl rfl,
   (show_summary_counts.1 (resW "timeout" false) [resW "passed" false] (Or.inl rfl)).1,
   by decide,
   show_summary_counts.2 summaryW (by decide)⟩
